import Mathlib

/-!
Verification of the flight-command translator of the drone-control-center
repository (`src/flight_controller.py`).  Real numbers of the control law are
modelled as rationals; the numpy operations `np.clip` and `.astype(int)` are
modelled explicitly.  The `PIDController` class is imported by the code from a
module `pid_controller` that is not among the sources, so it is modelled from
the specification (section 4.1, AxisPID).
-/

/-- Modelled from the spec: the code imports `PIDController` from
`pid_controller`, a module missing from the sources.  Per spec section 3 / 4.1
(AxisPID): gains Kp, Ki, Kd fixed at construction; a mutable setpoint; the
accumulated integral error; and the previous error. -/
structure PIDController where
  Kp : ℚ
  Ki : ℚ
  Kd : ℚ
  setpoint : ℚ
  integral : ℚ
  prev_error : ℚ
deriving DecidableEq, Repr

/-- Modelled from the spec: construction with fixed gains.  The mutable
state starts at zero (spec section 3: after reset the integral and the
previous error are exactly zero; the setpoint is supplied externally before
each compute, so its initial value is irrelevant to every claim). -/
def PIDController.make (kp ki kd : ℚ) : PIDController :=
  { Kp := kp, Ki := ki, Kd := kd, setpoint := 0, integral := 0, prev_error := 0 }

/-- Modelled from the spec: reset sets the integral and the previous error
to 0 and alters neither the gains nor the setpoint (spec section 4.1). -/
def PIDController.reset (p : PIDController) : PIDController :=
  { p with integral := 0, prev_error := 0 }

/-- Modelled from the spec: compute of AxisPID (spec section 4.1): the error
is setpoint minus measured; the integral accumulates error times dt; the
derivative is (error minus previous error) over dt, treated as 0 when dt is 0;
the output is Kp times error plus Ki times integral plus Kd times derivative;
the previous error becomes the error.  Returns the updated controller paired
with the output. -/
def PIDController.compute (p : PIDController) (measured dt : ℚ) :
    PIDController × ℚ :=
  let error := p.setpoint - measured
  let integral := p.integral + error * dt
  let derivative := if dt = 0 then 0 else (error - p.prev_error) / dt
  let output := p.Kp * error + p.Ki * integral + p.Kd * derivative
  ({ p with integral := integral, prev_error := error }, output)

/-- High-level action vector: four normalized components, in the unpacking
order of line 37 of `flight_controller.py`. -/
structure ActionVector where
  alt : ℚ
  roll : ℚ
  pitch : ℚ
  yaw : ℚ
deriving DecidableEq, Repr

/-- State vector: five components, in the unpacking order of line 36 of
`flight_controller.py`; the fifth is bound to the wildcard by the code. -/
structure StateGoal where
  alt : ℚ
  roll : ℚ
  pitch : ℚ
  yaw : ℚ
  fifth : ℚ
deriving DecidableEq, Repr

/-- Output RC command vector, in the fixed order of line 63 of
`flight_controller.py`. -/
structure RCCommands where
  throttle : ℤ
  roll : ℤ
  pitch : ℤ
  yaw : ℤ
deriving DecidableEq, Repr

/-- numpy clip of a scalar to the interval from lo to hi. -/
def clip (x lo hi : ℚ) : ℚ := min (max x lo) hi

/-- numpy astype int on a scalar: truncation toward zero. -/
def truncToInt (q : ℚ) : ℤ := if q < 0 then ⌈q⌉ else ⌊q⌋

/-- The translator state of `FlightController` (`flight_controller.py`,
lines 15-23): the four per-axis PID controllers and the `ff_throttle`
attribute. -/
structure FlightController where
  throttle_pid : PIDController
  roll_pid : PIDController
  pitch_pid : PIDController
  yaw_pid : PIDController
  ff_throttle : ℚ
deriving DecidableEq, Repr

/-- A translator with the canonical gains and feed-forward bias of
`FlightController.__init__` but arbitrary mutable PID state (setpoint,
integral, previous error for each of the four axes). -/
def FlightController.withState
    (tsp tin tpe rsp rin rpe psp pin ppe ysp yin ype : ℚ) : FlightController :=
  { throttle_pid := ⟨15, 0, 5, tsp, tin, tpe⟩
    roll_pid := ⟨1/2, 0, 1/5, rsp, rin, rpe⟩
    pitch_pid := ⟨1/2, 0, 1/5, psp, pin, ppe⟩
    yaw_pid := ⟨3/2, 0, 1, ysp, yin, ype⟩
    ff_throttle := 1260 }

/-- `FlightController.__init__` (lines 15-23): PID controllers with gains
Kp=15, Ki=0, Kd=5 (throttle), Kp=0.5, Ki=0, Kd=0.2 (roll, pitch),
Kp=1.5, Ki=0, Kd=1 (yaw), feed-forward throttle 1260, then `reset()`
(a no-op on freshly constructed controllers). -/
def FlightController.construct : FlightController :=
  { throttle_pid := (PIDController.make 15 0 5).reset
    roll_pid := (PIDController.make (1/2) 0 (1/5)).reset
    pitch_pid := (PIDController.make (1/2) 0 (1/5)).reset
    yaw_pid := (PIDController.make (3/2) 0 1).reset
    ff_throttle := 1260 }

/-- `FlightController.reset` (lines 25-30): resets all four PID
controllers. -/
def FlightController.reset (fc : FlightController) : FlightController :=
  { fc with
    throttle_pid := fc.throttle_pid.reset
    roll_pid := fc.roll_pid.reset
    pitch_pid := fc.pitch_pid.reset
    yaw_pid := fc.yaw_pid.reset }

/-- `FlightController.compute_rc_commands` (lines 32-65), returning the
updated translator together with the RC command vector: each axis setpoint is
assigned, the per-axis PID corrections are computed, the yaw setpoint is
resolved through the wrap comparison of lines 48-54, the corrections are
mapped by lines 58-61 (line 58 uses the literal 1260), clipped to
[1000, 2000] and converted to integers. -/
def FlightController.compute_rc_commands (fc : FlightController)
    (high_level_action : ActionVector) (state_goal : StateGoal) (dt : ℚ) :
    FlightController × RCCommands :=
  let tp := { fc.throttle_pid with setpoint := high_level_action.alt }
  let tr := tp.compute state_goal.alt dt
  let rp := { fc.roll_pid with setpoint := high_level_action.roll }
  let rr := rp.compute state_goal.roll dt
  let pp := { fc.pitch_pid with setpoint := high_level_action.pitch }
  let pr := pp.compute state_goal.pitch dt
  let clockwise_yaw_distance := |high_level_action.yaw - state_goal.yaw|
  let counterclockwise_yaw_distance :=
    |(high_level_action.yaw - 1) - state_goal.yaw|
  let yp :=
    if clockwise_yaw_distance < counterclockwise_yaw_distance then
      { fc.yaw_pid with setpoint := high_level_action.yaw }
    else
      { fc.yaw_pid with setpoint := high_level_action.yaw - 1 }
  let yr := yp.compute state_goal.yaw dt
  let rc_throttle := 1260 + 500 * tr.2
  let rc_roll := 1500 + 500 * rr.2
  let rc_pitch := 1500 + 500 * pr.2
  let rc_yaw := 1500 + 500 * yr.2
  ({ throttle_pid := tr.1, roll_pid := rr.1, pitch_pid := pr.1,
     yaw_pid := yr.1, ff_throttle := fc.ff_throttle },
   { throttle := truncToInt (clip rc_throttle 1000 2000)
     roll := truncToInt (clip rc_roll 1000 2000)
     pitch := truncToInt (clip rc_pitch 1000 2000)
     yaw := truncToInt (clip rc_yaw 1000 2000) })

/-- The unclamped throttle command of line 58: 1260 plus 500 times the
throttle correction of lines 39-40. -/
def preRcThrottle (fc : FlightController) (a : ActionVector) (s : StateGoal)
    (dt : ℚ) : ℚ :=
  1260 + 500 *
    (({ fc.throttle_pid with setpoint := a.alt }).compute s.alt dt).2

/-- The unclamped roll command of line 59: 1500 plus 500 times the roll
correction of lines 42-43. -/
def preRcRoll (fc : FlightController) (a : ActionVector) (s : StateGoal)
    (dt : ℚ) : ℚ :=
  1500 + 500 *
    (({ fc.roll_pid with setpoint := a.roll }).compute s.roll dt).2

/-- The unclamped pitch command of line 60: 1500 plus 500 times the pitch
correction of lines 45-46. -/
def preRcPitch (fc : FlightController) (a : ActionVector) (s : StateGoal)
    (dt : ℚ) : ℚ :=
  1500 + 500 *
    (({ fc.pitch_pid with setpoint := a.pitch }).compute s.pitch dt).2

/-- The unclamped yaw command of line 61: 1500 plus 500 times the yaw
correction of lines 48-55, with the wrap-resolved setpoint. -/
def preRcYaw (fc : FlightController) (a : ActionVector) (s : StateGoal)
    (dt : ℚ) : ℚ :=
  1500 + 500 *
    ((if |a.yaw - s.yaw| < |(a.yaw - 1) - s.yaw| then
        { fc.yaw_pid with setpoint := a.yaw }
      else
        { fc.yaw_pid with setpoint := a.yaw - 1 }).compute s.yaw dt).2

/-! Helper lemmas about the numpy operations. -/

lemma truncToInt_clip_range (x : ℚ) :
    1000 ≤ truncToInt (clip x 1000 2000) ∧
      truncToInt (clip x 1000 2000) ≤ 2000 := by
  have h1 : (1000 : ℚ) ≤ clip x 1000 2000 :=
    le_min (le_max_right x 1000) (by norm_num)
  have h2 : clip x 1000 2000 ≤ 2000 := min_le_right _ _
  have hn : ¬ clip x 1000 2000 < 0 := not_lt.mpr (le_trans (by norm_num) h1)
  rw [truncToInt, if_neg hn]
  constructor
  · exact Int.le_floor.mpr (by exact_mod_cast h1)
  · have h3 : (⌊clip x 1000 2000⌋ : ℚ) ≤ 2000 :=
      le_trans (Int.floor_le _) h2
    exact_mod_cast h3

lemma truncToInt_mono {x y : ℚ} (h : x ≤ y) : truncToInt x ≤ truncToInt y := by
  unfold truncToInt
  by_cases hx : x < 0
  · by_cases hy : y < 0
    · rw [if_pos hx, if_pos hy]
      exact Int.ceil_mono h
    · rw [if_pos hx, if_neg hy]
      have h1 : ⌈x⌉ ≤ 0 := Int.ceil_le.mpr (by exact_mod_cast hx.le)
      have h2 : (0 : ℤ) ≤ ⌊y⌋ := Int.floor_nonneg.mpr (not_lt.mp hy)
      omega
  · have hy : ¬ y < 0 := fun hy => hx (lt_of_le_of_lt h hy)
    rw [if_neg hx, if_neg hy]
    exact Int.floor_mono h

lemma clip_mono {x y lo hi : ℚ} (h : x ≤ y) : clip x lo hi ≤ clip y lo hi :=
  min_le_min (max_le_max h le_rfl) le_rfl

lemma yaw_setpoint_eq (fc : FlightController) (a : ActionVector)
    (s : StateGoal) (dt : ℚ) :
    (fc.compute_rc_commands a s dt).1.yaw_pid.setpoint =
      if |a.yaw - s.yaw| < |(a.yaw - 1) - s.yaw| then a.yaw else a.yaw - 1 := by
  by_cases h : |a.yaw - s.yaw| < |(a.yaw - 1) - s.yaw| <;>
    simp [FlightController.compute_rc_commands, PIDController.compute, h]

/-- C1: for every action vector, state vector, dt > 0 and internal PID state
of the translator, each of the four components of the command vector returned
by compute_rc_commands lies in [1000, 2000] inclusive. -/
theorem rc_commands_mem_range (fc : FlightController) (a : ActionVector)
    (s : StateGoal) (dt : ℚ) (hdt : 0 < dt) :
    (1000 ≤ (fc.compute_rc_commands a s dt).2.throttle ∧
        (fc.compute_rc_commands a s dt).2.throttle ≤ 2000) ∧
      (1000 ≤ (fc.compute_rc_commands a s dt).2.roll ∧
        (fc.compute_rc_commands a s dt).2.roll ≤ 2000) ∧
      (1000 ≤ (fc.compute_rc_commands a s dt).2.pitch ∧
        (fc.compute_rc_commands a s dt).2.pitch ≤ 2000) ∧
      (1000 ≤ (fc.compute_rc_commands a s dt).2.yaw ∧
        (fc.compute_rc_commands a s dt).2.yaw ≤ 2000) :=
  ⟨truncToInt_clip_range _, truncToInt_clip_range _,
    truncToInt_clip_range _, truncToInt_clip_range _⟩

/-- Witness for C1 at a concrete input. -/
theorem rc_commands_mem_range_witness :
    (0 : ℚ) < 1/100 ∧
      ((1000 ≤ (FlightController.construct.compute_rc_commands ⟨1, 0, 0, 1/2⟩
            ⟨0, 0, 0, 0, 0⟩ (1/100)).2.throttle ∧
          (FlightController.construct.compute_rc_commands ⟨1, 0, 0, 1/2⟩
            ⟨0, 0, 0, 0, 0⟩ (1/100)).2.throttle ≤ 2000) ∧
        (1000 ≤ (FlightController.construct.compute_rc_commands ⟨1, 0, 0, 1/2⟩
            ⟨0, 0, 0, 0, 0⟩ (1/100)).2.roll ∧
          (FlightController.construct.compute_rc_commands ⟨1, 0, 0, 1/2⟩
            ⟨0, 0, 0, 0, 0⟩ (1/100)).2.roll ≤ 2000) ∧
        (1000 ≤ (FlightController.construct.compute_rc_commands ⟨1, 0, 0, 1/2⟩
            ⟨0, 0, 0, 0, 0⟩ (1/100)).2.pitch ∧
          (FlightController.construct.compute_rc_commands ⟨1, 0, 0, 1/2⟩
            ⟨0, 0, 0, 0, 0⟩ (1/100)).2.pitch ≤ 2000) ∧
        (1000 ≤ (FlightController.construct.compute_rc_commands ⟨1, 0, 0, 1/2⟩
            ⟨0, 0, 0, 0, 0⟩ (1/100)).2.yaw ∧
          (FlightController.construct.compute_rc_commands ⟨1, 0, 0, 1/2⟩
            ⟨0, 0, 0, 0, 0⟩ (1/100)).2.yaw ≤ 2000)) :=
  ⟨by norm_num,
    rc_commands_mem_range FlightController.construct ⟨1, 0, 0, 1/2⟩
      ⟨0, 0, 0, 0, 0⟩ (1/100) (by norm_num)⟩

/-- C2, counterexample: with current yaw 0.9 and desired yaw 0.05 the code
resolves the yaw setpoint to 0.05 itself (the clockwise distance 0.85 is
smaller than the counter-clockwise distance 1.85), not to 0.05 - 1 = -0.95 as
the claim states. -/
theorem yaw_wrap_spec_example_refuted :
    (FlightController.construct.compute_rc_commands ⟨0, 0, 0, 1/20⟩
        ⟨0, 0, 0, 9/10, 0⟩ (1/100)).1.yaw_pid.setpoint = 1/20 ∧
      (1/20 : ℚ) ≠ 1/20 - 1 := by
  constructor
  · norm_num [FlightController.compute_rc_commands, FlightController.construct,
      PIDController.make, PIDController.reset, PIDController.compute, abs,
      max_def]
  · norm_num

/-- C2, amended: with current yaw 0.9 and desired yaw 0.05 the resolved yaw
setpoint equals 0.05 (the clockwise candidate, at distance 0.85, rather than
0.05 - 1 at distance 1.85); and in every call the chosen setpoint minimizes
the absolute distance to the current yaw among the two candidate
representations. -/
theorem yaw_setpoint_nearest_candidate :
    (FlightController.construct.compute_rc_commands ⟨0, 0, 0, 1/20⟩
        ⟨0, 0, 0, 9/10, 0⟩ (1/100)).1.yaw_pid.setpoint = 1/20 ∧
      ∀ (fc : FlightController) (a : ActionVector) (s : StateGoal) (dt : ℚ),
        |(fc.compute_rc_commands a s dt).1.yaw_pid.setpoint - s.yaw| ≤
            |a.yaw - s.yaw| ∧
          |(fc.compute_rc_commands a s dt).1.yaw_pid.setpoint - s.yaw| ≤
            |(a.yaw - 1) - s.yaw| := by
  refine ⟨by norm_num [FlightController.compute_rc_commands,
    FlightController.construct, PIDController.make, PIDController.reset,
    PIDController.compute, abs, max_def], fun fc a s dt => ?_⟩
  rw [yaw_setpoint_eq]
  by_cases h : |a.yaw - s.yaw| < |(a.yaw - 1) - s.yaw|
  · rw [if_pos h]
    exact ⟨le_refl _, h.le⟩
  · rw [if_neg h]
    exact ⟨not_lt.mp h, le_refl _⟩

/-- C3: the clockwise distance is the absolute difference of desired and
current yaw, the counter-clockwise distance that of desired yaw minus one and
current yaw; the yaw setpoint is the desired yaw when the clockwise distance
is strictly smaller and desired yaw minus one otherwise (ties included), and
the yaw command is computed against the current yaw from that setpoint. -/
theorem yaw_setpoint_selection (fc : FlightController) (a : ActionVector)
    (s : StateGoal) (dt : ℚ) :
    (fc.compute_rc_commands a s dt).1.yaw_pid.setpoint =
        (if |a.yaw - s.yaw| < |(a.yaw - 1) - s.yaw| then a.yaw
          else a.yaw - 1) ∧
      (fc.compute_rc_commands a s dt).2.yaw =
        truncToInt (clip (1500 + 500 *
          (({ fc.yaw_pid with setpoint :=
              if |a.yaw - s.yaw| < |(a.yaw - 1) - s.yaw| then a.yaw
              else a.yaw - 1 }).compute s.yaw dt).2) 1000 2000) := by
  refine ⟨yaw_setpoint_eq fc a s dt, ?_⟩
  by_cases h : |a.yaw - s.yaw| < |(a.yaw - 1) - s.yaw| <;>
    simp [FlightController.compute_rc_commands, h]

/-- C4: the canonical translator in reset state, called with
state = [0.5, 0.5, 0.5, 0.5, 0], action = [0.5, 0.5, 0.5, 0.5] and
dt = 0.01, returns exactly the command vector [1260, 1500, 1500, 1500]. -/
theorem canonical_scenario_output :
    (FlightController.construct.compute_rc_commands ⟨1/2, 1/2, 1/2, 1/2⟩
        ⟨1/2, 1/2, 1/2, 1/2, 0⟩ (1/100)).2 = ⟨1260, 1500, 1500, 1500⟩ := by
  norm_num [FlightController.compute_rc_commands, FlightController.construct,
    PIDController.make, PIDController.reset, PIDController.compute,
    truncToInt, clip, abs, min_def, max_def]

/-- C5: compute sets error to setpoint minus measured, accumulates error
times dt into the integral, uses derivative (error minus previous error) over
dt with the zero-dt guard, returns the weighted sum of the three terms, and
stores the error as the new previous error, leaving gains and setpoint
unchanged. -/
theorem pid_compute_spec (p : PIDController) (measured dt : ℚ) :
    (p.compute measured dt).1.integral =
        p.integral + (p.setpoint - measured) * dt ∧
      (p.compute measured dt).1.prev_error = p.setpoint - measured ∧
      (p.compute measured dt).1.Kp = p.Kp ∧
      (p.compute measured dt).1.Ki = p.Ki ∧
      (p.compute measured dt).1.Kd = p.Kd ∧
      (p.compute measured dt).1.setpoint = p.setpoint ∧
      (p.compute measured dt).2 =
        p.Kp * (p.setpoint - measured) +
          p.Ki * (p.integral + (p.setpoint - measured) * dt) +
          p.Kd * (if dt = 0 then 0
            else ((p.setpoint - measured) - p.prev_error) / dt) :=
  ⟨rfl, rfl, rfl, rfl, rfl, rfl, rfl⟩

lemma withState_reset_compute
    (tsp tin tpe rsp rin rpe psp pin ppe ysp yin ype : ℚ)
    (a : ActionVector) (s : StateGoal) (dt : ℚ) :
    ((FlightController.withState tsp tin tpe rsp rin rpe psp pin ppe
        ysp yin ype).reset).compute_rc_commands a s dt =
      FlightController.construct.compute_rc_commands a s dt := rfl

/-- C6: reset followed by compute_rc_commands yields the same output and the
same resulting internal PID state as a brand-new instance (same gains, same
bias) given the identical first-call inputs, whatever the mutable PID state
was before the reset. -/
theorem reset_matches_fresh_instance
    (tsp tin tpe rsp rin rpe psp pin ppe ysp yin ype : ℚ)
    (a : ActionVector) (s : StateGoal) (dt : ℚ) :
    ((FlightController.withState tsp tin tpe rsp rin rpe psp pin ppe
        ysp yin ype).reset).compute_rc_commands a s dt =
      FlightController.construct.compute_rc_commands a s dt :=
  withState_reset_compute tsp tin tpe rsp rin rpe psp pin ppe ysp yin ype
    a s dt

lemma construct_throttle_val (aalt aroll apitch ayaw : ℚ) (s : StateGoal)
    (dt : ℚ) :
    (FlightController.construct.compute_rc_commands
        ⟨aalt, aroll, apitch, ayaw⟩ s dt).2.throttle =
      truncToInt (clip (1260 + 500 * (15 * (aalt - s.alt) +
        0 * (0 + (aalt - s.alt) * dt) +
        5 * (if dt = 0 then 0 else ((aalt - s.alt) - 0) / dt)))
        1000 2000) := rfl

/-- C7: for a translator immediately after reset, with the state vector, dt
and the roll, pitch and yaw action components held fixed, the throttle
component of the returned command vector is monotone non-decreasing in the
altitude action component. -/
theorem throttle_monotone_in_altitude_action
    (tsp tin tpe rsp rin rpe psp pin ppe ysp yin ype : ℚ)
    (s : StateGoal) (dt aroll apitch ayaw a1 a2 : ℚ)
    (hdt : 0 < dt) (h12 : a1 ≤ a2) :
    ((FlightController.withState tsp tin tpe rsp rin rpe psp pin ppe
        ysp yin ype).reset.compute_rc_commands
        ⟨a1, aroll, apitch, ayaw⟩ s dt).2.throttle ≤
      ((FlightController.withState tsp tin tpe rsp rin rpe psp pin ppe
        ysp yin ype).reset.compute_rc_commands
        ⟨a2, aroll, apitch, ayaw⟩ s dt).2.throttle := by
  rw [withState_reset_compute, withState_reset_compute,
    construct_throttle_val, construct_throttle_val]
  apply truncToInt_mono
  apply clip_mono
  rw [if_neg hdt.ne', if_neg hdt.ne']
  have h5 : (a1 - s.alt - 0) / dt ≤ (a2 - s.alt - 0) / dt :=
    (div_le_div_iff_of_pos_right hdt).mpr (by linarith)
  linarith [h5]

/-- Witness for C7 at a concrete input. -/
theorem throttle_monotone_witness :
    (0 : ℚ) < 1/100 ∧ (0 : ℚ) ≤ 1 ∧
      ((FlightController.withState 0 0 0 0 0 0 0 0 0 0 0 0).reset.compute_rc_commands
          ⟨0, 0, 0, 0⟩ ⟨0, 0, 0, 0, 0⟩ (1/100)).2.throttle ≤
        ((FlightController.withState 0 0 0 0 0 0 0 0 0 0 0 0).reset.compute_rc_commands
          ⟨1, 0, 0, 0⟩ ⟨0, 0, 0, 0, 0⟩ (1/100)).2.throttle :=
  ⟨by norm_num, by norm_num,
    throttle_monotone_in_altitude_action 0 0 0 0 0 0 0 0 0 0 0 0
      ⟨0, 0, 0, 0, 0⟩ (1/100) 0 0 0 0 1 (by norm_num) (by norm_num)⟩

/-- C8: a component of the state or action vector outside [0,1] (with
dt > 0) is not rejected: the command vector is still clamped to [1000, 2000]
componentwise, each of the four outputs is exactly the clamped integer
truncation of the untouched unclamped command of lines 58-61, and the
unclamped commands extrapolate linearly: the throttle, roll and pitch
channels are affine in their action and state components with slope plus or
minus 500 times (Kp plus Ki dt plus Kd over dt), and the yaw correction is
affine in the resolved setpoint and the measured yaw. -/
theorem out_of_range_inputs_extrapolate (fc : FlightController)
    (a : ActionVector) (s : StateGoal) (dt : ℚ) (hdt : 0 < dt)
    (h : a.alt < 0 ∨ 1 < a.alt ∨ a.roll < 0 ∨ 1 < a.roll ∨
      a.pitch < 0 ∨ 1 < a.pitch ∨ a.yaw < 0 ∨ 1 < a.yaw ∨
      s.alt < 0 ∨ 1 < s.alt ∨ s.roll < 0 ∨ 1 < s.roll ∨
      s.pitch < 0 ∨ 1 < s.pitch ∨ s.yaw < 0 ∨ 1 < s.yaw ∨
      s.fifth < 0 ∨ 1 < s.fifth) :
    ((1000 ≤ (fc.compute_rc_commands a s dt).2.throttle ∧
        (fc.compute_rc_commands a s dt).2.throttle ≤ 2000) ∧
      (1000 ≤ (fc.compute_rc_commands a s dt).2.roll ∧
        (fc.compute_rc_commands a s dt).2.roll ≤ 2000) ∧
      (1000 ≤ (fc.compute_rc_commands a s dt).2.pitch ∧
        (fc.compute_rc_commands a s dt).2.pitch ≤ 2000) ∧
      (1000 ≤ (fc.compute_rc_commands a s dt).2.yaw ∧
        (fc.compute_rc_commands a s dt).2.yaw ≤ 2000)) ∧
    ((fc.compute_rc_commands a s dt).2.throttle =
        truncToInt (clip (preRcThrottle fc a s dt) 1000 2000) ∧
      (fc.compute_rc_commands a s dt).2.roll =
        truncToInt (clip (preRcRoll fc a s dt) 1000 2000) ∧
      (fc.compute_rc_commands a s dt).2.pitch =
        truncToInt (clip (preRcPitch fc a s dt) 1000 2000) ∧
      (fc.compute_rc_commands a s dt).2.yaw =
        truncToInt (clip (preRcYaw fc a s dt) 1000 2000)) ∧
    (∀ x y : ℚ,
      preRcThrottle fc ⟨x, a.roll, a.pitch, a.yaw⟩ s dt -
          preRcThrottle fc ⟨y, a.roll, a.pitch, a.yaw⟩ s dt =
        500 * (x - y) * (fc.throttle_pid.Kp + fc.throttle_pid.Ki * dt +
          fc.throttle_pid.Kd / dt)) ∧
    (∀ x y : ℚ,
      preRcThrottle fc a ⟨x, s.roll, s.pitch, s.yaw, s.fifth⟩ dt -
          preRcThrottle fc a ⟨y, s.roll, s.pitch, s.yaw, s.fifth⟩ dt =
        -(500 * (x - y) * (fc.throttle_pid.Kp + fc.throttle_pid.Ki * dt +
          fc.throttle_pid.Kd / dt))) ∧
    (∀ x y : ℚ,
      preRcRoll fc ⟨a.alt, x, a.pitch, a.yaw⟩ s dt -
          preRcRoll fc ⟨a.alt, y, a.pitch, a.yaw⟩ s dt =
        500 * (x - y) * (fc.roll_pid.Kp + fc.roll_pid.Ki * dt +
          fc.roll_pid.Kd / dt)) ∧
    (∀ x y : ℚ,
      preRcRoll fc a ⟨s.alt, x, s.pitch, s.yaw, s.fifth⟩ dt -
          preRcRoll fc a ⟨s.alt, y, s.pitch, s.yaw, s.fifth⟩ dt =
        -(500 * (x - y) * (fc.roll_pid.Kp + fc.roll_pid.Ki * dt +
          fc.roll_pid.Kd / dt))) ∧
    (∀ x y : ℚ,
      preRcPitch fc ⟨a.alt, a.roll, x, a.yaw⟩ s dt -
          preRcPitch fc ⟨a.alt, a.roll, y, a.yaw⟩ s dt =
        500 * (x - y) * (fc.pitch_pid.Kp + fc.pitch_pid.Ki * dt +
          fc.pitch_pid.Kd / dt)) ∧
    (∀ x y : ℚ,
      preRcPitch fc a ⟨s.alt, s.roll, x, s.yaw, s.fifth⟩ dt -
          preRcPitch fc a ⟨s.alt, s.roll, y, s.yaw, s.fifth⟩ dt =
        -(500 * (x - y) * (fc.pitch_pid.Kp + fc.pitch_pid.Ki * dt +
          fc.pitch_pid.Kd / dt))) ∧
    (∀ sp1 m1 sp2 m2 : ℚ,
      (({ fc.yaw_pid with setpoint := sp1 }).compute m1 dt).2 -
          (({ fc.yaw_pid with setpoint := sp2 }).compute m2 dt).2 =
        ((sp1 - m1) - (sp2 - m2)) * (fc.yaw_pid.Kp + fc.yaw_pid.Ki * dt +
          fc.yaw_pid.Kd / dt)) := by
  refine ⟨⟨truncToInt_clip_range _, truncToInt_clip_range _,
      truncToInt_clip_range _, truncToInt_clip_range _⟩,
    ⟨rfl, rfl, rfl, rfl⟩, fun x y => ?_, fun x y => ?_, fun x y => ?_,
    fun x y => ?_, fun x y => ?_, fun x y => ?_, fun sp1 m1 sp2 m2 => ?_⟩
  all_goals
    simp only [preRcThrottle, preRcRoll, preRcPitch, PIDController.compute]
    rw [if_neg hdt.ne', if_neg hdt.ne']
    ring

/-- Witness for C8 at a concrete input. -/
theorem out_of_range_witness :
    (0 : ℚ) < 1/100 ∧
    ((2 : ℚ) < 0 ∨ (1 : ℚ) < 2 ∨ (0 : ℚ) < 0 ∨ (1 : ℚ) < 0 ∨
      (0 : ℚ) < 0 ∨ (1 : ℚ) < 0 ∨ (0 : ℚ) < 0 ∨ (1 : ℚ) < 0 ∨
      (0 : ℚ) < 0 ∨ (1 : ℚ) < 0 ∨ (0 : ℚ) < 0 ∨ (1 : ℚ) < 0 ∨
      (0 : ℚ) < 0 ∨ (1 : ℚ) < 0 ∨ (0 : ℚ) < 0 ∨ (1 : ℚ) < 0 ∨
      (0 : ℚ) < 0 ∨ (1 : ℚ) < 0) ∧
    (1000 ≤ (FlightController.construct.compute_rc_commands ⟨2, 0, 0, 0⟩
        ⟨0, 0, 0, 0, 0⟩ (1/100)).2.throttle ∧
      (FlightController.construct.compute_rc_commands ⟨2, 0, 0, 0⟩
        ⟨0, 0, 0, 0, 0⟩ (1/100)).2.throttle ≤ 2000) ∧
    (FlightController.construct.compute_rc_commands ⟨2, 0, 0, 0⟩
        ⟨0, 0, 0, 0, 0⟩ (1/100)).2.throttle =
      truncToInt (clip (preRcThrottle FlightController.construct ⟨2, 0, 0, 0⟩
        ⟨0, 0, 0, 0, 0⟩ (1/100)) 1000 2000) ∧
    (FlightController.construct.compute_rc_commands ⟨2, 0, 0, 0⟩
        ⟨0, 0, 0, 0, 0⟩ (1/100)).2.yaw =
      truncToInt (clip (preRcYaw FlightController.construct ⟨2, 0, 0, 0⟩
        ⟨0, 0, 0, 0, 0⟩ (1/100)) 1000 2000) ∧
    (preRcThrottle FlightController.construct ⟨3, 0, 0, 0⟩
        ⟨0, 0, 0, 0, 0⟩ (1/100) -
        preRcThrottle FlightController.construct ⟨1, 0, 0, 0⟩
        ⟨0, 0, 0, 0, 0⟩ (1/100) =
      500 * (3 - 1) * (FlightController.construct.throttle_pid.Kp +
        FlightController.construct.throttle_pid.Ki * (1/100) +
        FlightController.construct.throttle_pid.Kd / (1/100))) ∧
    (preRcThrottle FlightController.construct ⟨2, 0, 0, 0⟩
        ⟨3, 0, 0, 0, 0⟩ (1/100) -
        preRcThrottle FlightController.construct ⟨2, 0, 0, 0⟩
        ⟨1, 0, 0, 0, 0⟩ (1/100) =
      -(500 * (3 - 1) * (FlightController.construct.throttle_pid.Kp +
        FlightController.construct.throttle_pid.Ki * (1/100) +
        FlightController.construct.throttle_pid.Kd / (1/100)))) ∧
    (({ FlightController.construct.yaw_pid with setpoint := (2 : ℚ) }).compute
          0 (1/100)).2 -
        (({ FlightController.construct.yaw_pid with
          setpoint := (0 : ℚ) }).compute 0 (1/100)).2 =
      ((2 - 0) - (0 - 0)) * (FlightController.construct.yaw_pid.Kp +
        FlightController.construct.yaw_pid.Ki * (1/100) +
        FlightController.construct.yaw_pid.Kd / (1/100)) :=
  ⟨by norm_num, Or.inr (Or.inl (by norm_num)),
    (out_of_range_inputs_extrapolate FlightController.construct ⟨2, 0, 0, 0⟩
      ⟨0, 0, 0, 0, 0⟩ (1/100) (by norm_num)
      (Or.inr (Or.inl (by norm_num)))).1.1,
    (out_of_range_inputs_extrapolate FlightController.construct ⟨2, 0, 0, 0⟩
      ⟨0, 0, 0, 0, 0⟩ (1/100) (by norm_num)
      (Or.inr (Or.inl (by norm_num)))).2.1.1,
    (out_of_range_inputs_extrapolate FlightController.construct ⟨2, 0, 0, 0⟩
      ⟨0, 0, 0, 0, 0⟩ (1/100) (by norm_num)
      (Or.inr (Or.inl (by norm_num)))).2.1.2.2.2,
    (out_of_range_inputs_extrapolate FlightController.construct ⟨2, 0, 0, 0⟩
      ⟨0, 0, 0, 0, 0⟩ (1/100) (by norm_num)
      (Or.inr (Or.inl (by norm_num)))).2.2.1 3 1,
    (out_of_range_inputs_extrapolate FlightController.construct ⟨2, 0, 0, 0⟩
      ⟨0, 0, 0, 0, 0⟩ (1/100) (by norm_num)
      (Or.inr (Or.inl (by norm_num)))).2.2.2.1 3 1,
    (out_of_range_inputs_extrapolate FlightController.construct ⟨2, 0, 0, 0⟩
      ⟨0, 0, 0, 0, 0⟩ (1/100) (by norm_num)
      (Or.inr (Or.inl (by norm_num)))).2.2.2.2.2.2.2.2 2 0 0 0⟩

/-- C9: two state vectors differing only in the fifth component give the same
returned translator state and the same command vector: the fifth state slot
is never consumed. -/
theorem fifth_state_slot_ignored (fc : FlightController) (a : ActionVector)
    (dt salt sroll spitch syaw f1 f2 : ℚ) :
    fc.compute_rc_commands a ⟨salt, sroll, spitch, syaw, f1⟩ dt =
      fc.compute_rc_commands a ⟨salt, sroll, spitch, syaw, f2⟩ dt := rfl

/-- C10: two translators identical except for the ff_throttle attribute
return identical command vectors and identical resulting per-axis PID states
on identical inputs: line 58 uses the literal 1260, never the attribute. -/
theorem ff_throttle_attribute_unused (tq rq pq yq : PIDController)
    (ff1 ff2 : ℚ) (a : ActionVector) (s : StateGoal) (dt : ℚ) :
    ((⟨tq, rq, pq, yq, ff1⟩ : FlightController).compute_rc_commands
          a s dt).2 =
        ((⟨tq, rq, pq, yq, ff2⟩ : FlightController).compute_rc_commands
          a s dt).2 ∧
      ((⟨tq, rq, pq, yq, ff1⟩ : FlightController).compute_rc_commands
          a s dt).1.throttle_pid =
        ((⟨tq, rq, pq, yq, ff2⟩ : FlightController).compute_rc_commands
          a s dt).1.throttle_pid ∧
      ((⟨tq, rq, pq, yq, ff1⟩ : FlightController).compute_rc_commands
          a s dt).1.roll_pid =
        ((⟨tq, rq, pq, yq, ff2⟩ : FlightController).compute_rc_commands
          a s dt).1.roll_pid ∧
      ((⟨tq, rq, pq, yq, ff1⟩ : FlightController).compute_rc_commands
          a s dt).1.pitch_pid =
        ((⟨tq, rq, pq, yq, ff2⟩ : FlightController).compute_rc_commands
          a s dt).1.pitch_pid ∧
      ((⟨tq, rq, pq, yq, ff1⟩ : FlightController).compute_rc_commands
          a s dt).1.yaw_pid =
        ((⟨tq, rq, pq, yq, ff2⟩ : FlightController).compute_rc_commands
          a s dt).1.yaw_pid :=
  ⟨rfl, rfl, rfl, rfl, rfl⟩
